import Mathlib

/-
Shallow embedding of the preview-cache lifecycle implemented in src/main.ts
of obsidian-canvas-link-optimizer. The plugin patches five methods of the
canvas link-node prototype (saveThumbnail, getThumbnailPath,
getMetadataPath, the constructor hook and recreateFrame); the definitions
below translate those patched bodies. External collaborators (the host
canvas, the webview element, the vault adapter) are represented by the
values they contribute: the webview is a Frame, the vault files for one
node are a CacheState, and DOM or timer events are explicit event values
folded over a step function.
-/

namespace CanvasLinkOptimizer

/- Image bytes are opaque: a capturePage result is identified by a token. -/
abbrev Image := Nat

/- Contents of the persisted metadata file. JSON.stringify on the object
written at main.ts line 170 always yields a well-formed blob carrying the
title; any other byte string is one JSON.parse rejects. -/
inductive MetaBlob where
  | json (title : String)
  | corrupt (raw : String)
deriving DecidableEq

/- JSON.parse on a metadata blob, as used at main.ts line 136: yields the
stored title, or fails (in the source: throws SyntaxError). -/
def parseMetadata : MetaBlob → Option String
  | .json t => some t
  | .corrupt _ => none

/- The mounted webview surface (this.frameEl when present): getTitle() is
time dependent because the page keeps loading after did-frame-finish-load,
and capturePage() returns the current rendering. -/
structure Frame where
  titleAt : Nat → String
  pageImage : Image

/- Persisted cache entries of a single node: the thumbnail file and the
metadata file. none means the file does not exist. -/
structure CacheState where
  thumbnail : Option Image
  metadata : Option MetaBlob
deriving DecidableEq

/- Errors thrown by the patched bodies: SyntaxError from JSON.parse on a
corrupt blob, TypeError from dereferencing an absent frame element. -/
inductive JsError where
  | syntaxError
  | typeError
deriving DecidableEq

/- Cache directory and per-node file paths, main.ts lines 7, 68-73. -/
def cacheDir (manifestDir : String) : String :=
  manifestDir ++ "/data/linkCache"

def getThumbnailPath (manifestDir id : String) : String :=
  cacheDir manifestDir ++ "/" ++ id ++ ".thumbnail.jpg"

def getMetadataPath (manifestDir id : String) : String :=
  cacheDir manifestDir ++ "/" ++ id ++ ".metadata.json"

/- In-memory state of one patched link node. perviewImageEl keeps the
source's spelling of the cached-image element and holds the src it was
given; frameLoadHandler records whether the did-frame-finish-load listener
installed by the patched recreateFrame is still attached; observerConnected
records whether the MutationObserver of the constructor hook is observing
nodeEl. -/
structure LinkNode where
  initializing : Bool
  frameEl : Option Frame
  perviewImageEl : Option String
  labelText : Option String
  alwaysKeepLoaded : Bool
  frameLoadHandler : Bool
  observerConnected : Bool

/- Patched saveThumbnail, main.ts lines 60-67: when no frame element is
mounted it returns at once, before the log line and before capturePage;
otherwise it logs, captures the page and writes the thumbnail file. The
first component collects the log messages the call emits. -/
def saveThumbnail (frameEl : Option Frame) (url : String) (store : CacheState) :
    List String × CacheState :=
  match frameEl with
  | none => ([], store)
  | some f =>
      (["Saving thumbnail for " ++ url],
        { store with thumbnail := some f.pageImage })

/- Body of onFrameLoaded after the 1000ms settle sleep, main.ts lines
165-174: reads this.frameEl.getTitle() at settle time (a TypeError if the
frame is gone by then, thrown before either file is written), writes the
metadata file, then runs saveThumbnail. An error result carries the store
at the throw point. -/
def settlePhase (frameAtSettle : Option Frame) (url : String) (settleTime : Nat)
    (store : CacheState) : Except (JsError × CacheState) CacheState :=
  match frameAtSettle with
  | none => .error (.typeError, store)
  | some f =>
      .ok (saveThumbnail (some f) url
        { store with metadata := some (.json (f.titleAt settleTime)) }).2

/- Geometry filter of the MutationObserver callback, main.ts lines 89-101:
newW, newH come from the target's current style, oldW, oldH from the regex
matches over mutation.oldValue (the empty string when a dimension is absent
or unresolved). The debounced saveThumbnail is invoked exactly when this
returns true. -/
def resizeQualifies (newW newH oldW oldH : String) : Bool :=
  if oldW = "" || oldH = "" || newW = "" || newH = "" then false
  else if newW = oldW && newH = oldH then false
  else true

/- Patched recreateFrame, main.ts lines 155-182: while the constructor hook
is running it returns null without calling the original; otherwise the
wrapped original (host code) mounts the content frame, and when that frame
is a WEBVIEW (desktop) the did-frame-finish-load listener is attached. -/
def recreateFrame (newFrame : Frame) (isWebview : Bool) (s : LinkNode) :
    Option Unit × LinkNode :=
  if s.initializing then (none, s)
  else if isWebview then
    (some (), { s with frameEl := some newFrame, frameLoadHandler := true })
  else
    (some (), { s with frameEl := some newFrame })

/- revealWebview, main.ts lines 115-119: run on click on the cached image
or on its error event; discards the image element and recreates the live
frame. -/
def revealWebview (newFrame : Frame) (isWebview : Bool) (s : LinkNode) : LinkNode :=
  (recreateFrame newFrame isWebview
    { s with alwaysKeepLoaded := true, perviewImageEl := none }).2

/- Synchronous part of the patched constructor hook, main.ts lines 74-111:
sets the initializing flag, runs the wrapped original (host code, which may
call this.recreateFrame any number of times; nestedRecreateCalls counts
them), clears the flag, builds the debounced saveThumbnail and connects the
MutationObserver to nodeEl. -/
def initializeSyncPart (nestedRecreateCalls : Nat) (newFrame : Frame)
    (isWebview : Bool) (s : LinkNode) : LinkNode :=
  { ((fun t => (recreateFrame newFrame isWebview t).2)^[nestedRecreateCalls]
      { s with initializing := true }) with
    initializing := false, observerConnected := true }

/- Async thumbnail-display block of the constructor hook, main.ts lines
114-150: when either cache file is missing, recreate the live frame and
stop; otherwise clear alwaysKeepLoaded, read and parse the metadata (the
parse may throw: the error carries the node state at the throw point), set
the label from the stored title, and mount the cached-image element with
the thumbnail path as its source, wired to revealWebview on click and on
error. -/
def displayThumbnail (manifestDir id : String) (store : CacheState)
    (newFrame : Frame) (isWebview : Bool) (s : LinkNode) :
    Except (JsError × LinkNode) LinkNode :=
  match store.thumbnail, store.metadata with
  | some _, some blob =>
      match parseMetadata blob with
      | none => .error (.syntaxError, { s with alwaysKeepLoaded := false })
      | some title =>
          .ok { s with
                  alwaysKeepLoaded := false,
                  labelText := some title,
                  perviewImageEl := some (getThumbnailPath manifestDir id) }
  | _, _ => .ok (recreateFrame newFrame isWebview s).2

/- Whole patched constructor hook, main.ts lines 74-153: the synchronous
wrapper followed by the async display block. -/
def initializeNode (manifestDir id : String) (nestedRecreateCalls : Nat)
    (store : CacheState) (newFrame : Frame) (isWebview : Bool) (s : LinkNode) :
    Except (JsError × LinkNode) LinkNode :=
  displayThumbnail manifestDir id store newFrame isWebview
    (initializeSyncPart nestedRecreateCalls newFrame isWebview s)

/- Events a live patched node can receive: click or error on the cached
image element, did-frame-finish-load from the webview, and a style
attribute mutation reported by the MutationObserver (with the extracted
new and old dimension strings). -/
inductive NodeEvent where
  | imgClick
  | imgError
  | frameLoadFinished
  | styleMutation (newW newH oldW oldH : String)
deriving DecidableEq

/- Record of one snapshot write, i.e. one run of the onFrameLoaded settle
code writing the metadata file and the thumbnail file. -/
structure WriteRec where
  time : Nat
  title : String
  image : Image
deriving DecidableEq

/- One node together with its persisted cache entries and the log of
snapshot writes performed so far. -/
structure Sys where
  node : LinkNode
  store : CacheState
  snapshotWrites : List WriteRec

/- Effect of one timestamped event on a node, from main.ts: click and error
on the cached image run revealWebview (lines 148-149, only possible while
the image element exists); did-frame-finish-load runs onFrameLoaded (lines
162-176) when the listener is still attached — the listener detaches
itself first, then after the 1000ms settle sleep the metadata and the
thumbnail are written; a style mutation runs the debounced saveThumbnail
exactly when the geometry filter qualifies it (lines 89-101). -/
def step (newFrame : Frame) (isWebview : Bool) (url : String) (σ : Sys)
    (te : Nat × NodeEvent) : Sys :=
  match te.2 with
  | .imgClick =>
      if σ.node.perviewImageEl.isSome then
        { σ with node := revealWebview newFrame isWebview σ.node }
      else σ
  | .imgError =>
      if σ.node.perviewImageEl.isSome then
        { σ with node := revealWebview newFrame isWebview σ.node }
      else σ
  | .frameLoadFinished =>
      match σ.node.frameEl with
      | some f =>
          if σ.node.frameLoadHandler then
            let settleTime := te.1 + 1000
            match settlePhase (some f) url settleTime σ.store with
            | .ok store1 =>
                { node := { σ.node with frameLoadHandler := false },
                  store := store1,
                  snapshotWrites := σ.snapshotWrites ++
                    [⟨settleTime, f.titleAt settleTime, f.pageImage⟩] }
            | .error _ => σ
          else σ
      | none => σ
  | .styleMutation nw nh ow oh =>
      if resizeQualifies nw nh ow oh then
        { σ with store := (saveThumbnail σ.node.frameEl url σ.store).2 }
      else σ

/- Fold a list of timestamped events over a node. -/
def runEvents (newFrame : Frame) (isWebview : Bool) (url : String) (σ : Sys)
    (events : List (Nat × NodeEvent)) : Sys :=
  events.foldl (step newFrame isWebview url) σ

/-- Modelled from the spec: the debounce utility applied at main.ts line 80
is imported from the host API and its implementation is not part of this
repository; the spec fixes its semantics — a qualifying event (re)starts a
fixed quiet-window timer for the node, an event arriving before the timer
fires resets the timer rather than stacking a second capture, and when the
timer fires with no further event exactly one capture runs. Given the
ordered call times of the debounced function, this returns the times at
which the wrapped callback fires. -/
def resetDebounceFires (window : Nat) : List Nat → List Nat
  | [] => []
  | [t] => [t + window]
  | t1 :: t2 :: rest =>
      if t2 < t1 + window then resetDebounceFires window (t2 :: rest)
      else (t1 + window) :: resetDebounceFires window (t2 :: rest)

/- Last element of t :: ts. -/
def lastTime (t : Nat) : List Nat → Nat
  | [] => t
  | u :: rest => lastTime u rest

/- Bursts: every time in the list is at or after the previous one and
strictly inside the previous one's quiet window. -/
def withinWindow (window t : Nat) : List Nat → Bool
  | [] => true
  | u :: rest => (t ≤ u && u < t + window) && withinWindow window u rest

/- Capture-and-save invocations of one node that have started: true marks
one still in flight (its awaited capturePage has not resolved), false a
finished one. -/
abbrev CaptureTasks := List Bool

/- Scheduling events for the captures of one node: spawn is a trigger (the
debounce timer firing, or the initial-load settle path reaching its
saveThumbnail call) and finish i is the awaited capturePage of invocation
i resolving, after which its write is issued and the invocation ends. -/
inductive SchedEvent where
  | spawn
  | finish (i : Nat)
deriving DecidableEq

/- Scheduling model of saveThumbnail invocations, from main.ts lines 60-67,
80 and 174: a trigger calls this.saveThumbnail() immediately, and the
method consults only this.frameEl — the node carries no in-flight flag,
queue or lock — so a new invocation starts regardless of whether an
earlier one is still awaiting capturePage. -/
def schedStep (tasks : CaptureTasks) : SchedEvent → CaptureTasks
  | .spawn => tasks ++ [true]
  | .finish i => tasks.set i false

def runSched (events : List SchedEvent) : CaptureTasks :=
  events.foldl schedStep []

/- Number of capture-and-save invocations currently in flight. -/
def inFlight (tasks : CaptureTasks) : Nat :=
  tasks.countP (fun b => b)

/-- Effect of tearing one node down on the plugin-installed per-node
resources, from main.ts lines 57-189: the patch set covers exactly the five
methods saveThumbnail, getThumbnailPath, getMetadataPath, the constructor
hook and recreateFrame — no teardown hook — and the file contains no
resizeObserver.disconnect() call and no cancellation of the debounced
saveThumbnail or of the settle sleep; the only registered uninstaller
(line 184) restores the patched prototype methods at plugin unload, not at
node teardown. Tearing a node down therefore leaves every plugin-installed
per-node resource exactly as it was. -/
def teardownNode (s : LinkNode) : LinkNode := s

/- Concrete values used by witnesses and counterexamples. -/

def demoFrame : Frame :=
  { titleAt := fun _ => "Example Domain", pageImage := 7 }

/- A frame whose title differs before and after the settle delay. -/
def demoFrame2 : Frame :=
  { titleAt := fun t => if 1000 ≤ t then "settled title" else "early title",
    pageImage := 9 }

def node0 : LinkNode :=
  { initializing := false, frameEl := none, perviewImageEl := none,
    labelText := none, alwaysKeepLoaded := true, frameLoadHandler := false,
    observerConnected := false }

def corruptStore : CacheState :=
  { thumbnail := some 3, metadata := some (.corrupt "not json") }

def hitStore : CacheState :=
  { thumbnail := some 5, metadata := some (.json "Cached Title") }

def emptyStore : CacheState := { thumbnail := none, metadata := none }

def halfStore : CacheState := { thumbnail := some 4, metadata := none }

def initNode : LinkNode := { node0 with initializing := true }

def demoSys : Sys :=
  { node := node0, store := emptyStore, snapshotWrites := [] }

/- Node state produced by the constructor hook on an empty cache with a
webview frame: live rendering with the load listener attached. -/
def liveNode : LinkNode :=
  { initializing := false, frameEl := some demoFrame, perviewImageEl := none,
    labelText := none, alwaysKeepLoaded := true, frameLoadHandler := true,
    observerConnected := true }

def demoEvents : List (Nat × NodeEvent) :=
  [(0, .styleMutation "120px" "80px" "100px" "80px"),
   (40, .frameLoadFinished)]

/- Basic lemmas about the patched bodies. -/

lemma recreateFrame_of_initializing (f : Frame) (w : Bool) (s : LinkNode)
    (h : s.initializing = true) : recreateFrame f w s = (none, s) := by
  simp [recreateFrame, h]

lemma iterate_recreateFrame_of_initializing (f : Frame) (w : Bool) (k : Nat)
    (s : LinkNode) (h : s.initializing = true) :
    (fun t => (recreateFrame f w t).2)^[k] s = s := by
  induction k with
  | zero => rfl
  | succ n ih =>
      rw [Function.iterate_succ_apply]
      simp only [recreateFrame_of_initializing f w s h]
      exact ih

lemma initializeSyncPart_eq (k : Nat) (f : Frame) (w : Bool) (s : LinkNode) :
    initializeSyncPart k f w s =
      { s with initializing := false, observerConnected := true } := by
  unfold initializeSyncPart
  rw [iterate_recreateFrame_of_initializing f w k { s with initializing := true } rfl]

lemma recreateFrame_observerConnected (f : Frame) (w : Bool) (s : LinkNode) :
    ((recreateFrame f w s).2).observerConnected = s.observerConnected := by
  unfold recreateFrame
  split_ifs <;> rfl

lemma initializeNode_ok_observerConnected (manifestDir id : String) (k : Nat)
    (store : CacheState) (f : Frame) (w : Bool) (s s1 : LinkNode)
    (h : initializeNode manifestDir id k store f w s = .ok s1) :
    s1.observerConnected = true := by
  unfold initializeNode at h
  rw [initializeSyncPart_eq] at h
  obtain ⟨th, md⟩ := store
  unfold displayThumbnail at h
  rcases th with _ | img <;> rcases md with _ | blob
  · rw [← Except.ok.inj h, recreateFrame_observerConnected]
  · rw [← Except.ok.inj h, recreateFrame_observerConnected]
  · rw [← Except.ok.inj h, recreateFrame_observerConnected]
  · rcases blob with title | raw
    · rw [← Except.ok.inj h]
    · exact absurd h (by simp [parseMetadata])

/- No event other than a click or an error on the cached image element can
mount a frame: folding any such event list leaves frameEl absent. -/

lemma runEvents_frameEl_none (f : Frame) (w : Bool) (url : String)
    (events : List (Nat × NodeEvent)) (σ : Sys)
    (hframe : σ.node.frameEl = none)
    (hev : ∀ te ∈ events, te.2 ≠ NodeEvent.imgClick ∧ te.2 ≠ NodeEvent.imgError) :
    (runEvents f w url σ events).node.frameEl = none := by
  induction events generalizing σ with
  | nil => exact hframe
  | cons te rest ih =>
      have hte := hev te (by simp)
      have hstep : (step f w url σ te).node.frameEl = none := by
        rcases te with ⟨t, e⟩
        cases e with
        | imgClick => exact absurd rfl hte.1
        | imgError => exact absurd rfl hte.2
        | frameLoadFinished => simp [step, hframe]
        | styleMutation nw nh ow oh =>
            by_cases hq : resizeQualifies nw nh ow oh <;> simp [step, hq, hframe]
      exact ih (step f w url σ te) hstep (fun te2 h2 => hev te2 (by simp [h2]))

/- A node whose load listener is detached and which shows no cached image
element performs no further snapshot write on any event. -/

lemma step_dormant (f : Frame) (w : Bool) (url : String) (σ : Sys)
    (te : Nat × NodeEvent)
    (hhandler : σ.node.frameLoadHandler = false)
    (himg : σ.node.perviewImageEl = none) :
    (step f w url σ te).node = σ.node ∧
      (step f w url σ te).snapshotWrites = σ.snapshotWrites := by
  rcases te with ⟨t, e⟩
  cases e with
  | imgClick => simp [step, himg]
  | imgError => simp [step, himg]
  | frameLoadFinished =>
      rcases hfe : σ.node.frameEl with _ | f0 <;> simp [step, hfe, hhandler]
  | styleMutation nw nh ow oh =>
      by_cases hq : resizeQualifies nw nh ow oh <;> simp [step, hq]

lemma runEvents_dormant (f : Frame) (w : Bool) (url : String)
    (events : List (Nat × NodeEvent)) (σ : Sys)
    (hhandler : σ.node.frameLoadHandler = false)
    (himg : σ.node.perviewImageEl = none) :
    (runEvents f w url σ events).snapshotWrites = σ.snapshotWrites := by
  induction events generalizing σ with
  | nil => rfl
  | cons te rest ih =>
      obtain ⟨hn, hws⟩ := step_dormant f w url σ te hhandler himg
      have hrec := ih (step f w url σ te) (by rw [hn]; exact hhandler)
        (by rw [hn]; exact himg)
      calc (runEvents f w url σ (te :: rest)).snapshotWrites
          = (runEvents f w url (step f w url σ te) rest).snapshotWrites := rfl
        _ = (step f w url σ te).snapshotWrites := hrec
        _ = σ.snapshotWrites := hws

/-- C1: when the cache lookup finds both parts and the metadata parses, the
constructor hook displays the cached thumbnail (the image element's source
is the thumbnail path), sets the displayed title from the cached metadata,
and mounts no frame — and no later event short of a click on the cached
image or an image error ever mounts one. -/
theorem claim_C1 (manifestDir id url : String) (k : Nat) (img : Image)
    (title : String) (f : Frame) (w : Bool) (s : LinkNode)
    (hframe : s.frameEl = none)
    (events : List (Nat × NodeEvent))
    (hev : ∀ te ∈ events, te.2 ≠ NodeEvent.imgClick ∧ te.2 ≠ NodeEvent.imgError) :
    ∃ s1, initializeNode manifestDir id k ⟨some img, some (.json title)⟩ f w s =
        .ok s1 ∧
      s1.labelText = some title ∧
      s1.perviewImageEl = some (getThumbnailPath manifestDir id) ∧
      s1.frameEl = none ∧
      (runEvents f w url ⟨s1, ⟨some img, some (.json title)⟩, []⟩
        events).node.frameEl = none := by
  refine ⟨{ s with
            initializing := false,
            observerConnected := true,
            alwaysKeepLoaded := false,
            labelText := some title,
            perviewImageEl := some (getThumbnailPath manifestDir id) },
    ?_, rfl, rfl, hframe, ?_⟩
  · show displayThumbnail manifestDir id _ f w (initializeSyncPart k f w s) = _
    rw [initializeSyncPart_eq]
    rfl
  · exact runEvents_frameEl_none f w url events _ hframe hev

/-- C1 witness: a concretely cached node keeps its frame absent over a
resize burst and a stray load event. -/
theorem claim_C1_witness :
    node0.frameEl = none ∧
    (∀ te ∈ demoEvents, te.2 ≠ NodeEvent.imgClick ∧ te.2 ≠ NodeEvent.imgError) ∧
    (∃ s1, initializeNode "plugins/clo" "n1" 1 hitStore demoFrame true node0 =
        .ok s1 ∧
      s1.labelText = some "Cached Title" ∧
      s1.perviewImageEl = some (getThumbnailPath "plugins/clo" "n1") ∧
      s1.frameEl = none ∧
      (runEvents demoFrame true "https://a.example" ⟨s1, hitStore, []⟩
        demoEvents).node.frameEl = none) :=
  ⟨rfl, by decide,
    claim_C1 "plugins/clo" "n1" "https://a.example" 1 5 "Cached Title"
      demoFrame true node0 rfl demoEvents (by decide)⟩

/-- C2: under the spec's reset semantics for the debounced saveThumbnail, a
burst of qualifying events in which each event arrives inside the 500ms
quiet window of the previous one yields exactly one capture, fired when
the quiet window of the last event elapses. -/
theorem claim_C2 (t : Nat) (ts : List Nat)
    (hburst : withinWindow 500 t ts = true) :
    resetDebounceFires 500 (t :: ts) = [lastTime t ts + 500] := by
  induction ts generalizing t with
  | nil => rfl
  | cons u rest ih =>
      unfold withinWindow at hburst
      simp only [Bool.and_eq_true, decide_eq_true_eq] at hburst
      obtain ⟨⟨hle, hlt⟩, htail⟩ := hburst
      unfold resetDebounceFires
      rw [if_pos hlt]
      exact ih u htail

/-- C2 witness: three events 100ms apart produce one capture at 700ms. -/
theorem claim_C2_witness :
    withinWindow 500 0 [100, 200] = true ∧
    resetDebounceFires 500 [0, 100, 200] = [700] :=
  ⟨by decide, (claim_C2 0 [100, 200] (by decide)).trans (by decide)⟩

/-- C3, code-bug evidence: with the thumbnail present and the metadata file
unparsable, the constructor hook's cache path throws the JSON parse error
instead of treating the node as a cache miss — the carried node state has
no frame mounted (live rendering was not activated as it is on a miss) and
no cached image element either. -/
theorem claim_C3 :
    initializeNode "plugins/clo" "n3" 0 corruptStore demoFrame true node0 =
      .error (.syntaxError,
        { initializing := false, frameEl := none, perviewImageEl := none,
          labelText := none, alwaysKeepLoaded := false,
          frameLoadHandler := false, observerConnected := true }) ∧
    parseMetadata (.corrupt "not json") = none :=
  ⟨rfl, rfl⟩

/-- C4: a saveThumbnail invocation finding no frame element mounted returns
before the log line and before capturePage: it emits no log and leaves both
persisted cache parts exactly as they were. -/
theorem claim_C4 (url : String) (store : CacheState) :
    saveThumbnail none url store = ([], store) ∧
      (saveThumbnail none url store).2.thumbnail = store.thumbnail ∧
      (saveThumbnail none url store).2.metadata = store.metadata :=
  ⟨rfl, rfl, rfl⟩

/-- C5: a fresh node with an empty cache enters live rendering (the frame
is mounted with its load listener), and a did-frame-finish-load event at
time t followed by any further events yields exactly one snapshot write,
performed at t + 1000 with the title the frame reports at that settle
moment. -/
theorem claim_C5 (manifestDir id url : String) (k : Nat) (f : Frame)
    (s : LinkNode) (hprev : s.perviewImageEl = none)
    (t : Nat) (rest : List (Nat × NodeEvent)) :
    ∃ s1, initializeNode manifestDir id k emptyStore f true s = .ok s1 ∧
      s1.frameEl = some f ∧ s1.frameLoadHandler = true ∧
      (runEvents f true url ⟨s1, emptyStore, []⟩
          ((t, NodeEvent.frameLoadFinished) :: rest)).snapshotWrites =
        [⟨t + 1000, f.titleAt (t + 1000), f.pageImage⟩] := by
  refine ⟨{ s with
            initializing := false,
            observerConnected := true,
            frameEl := some f,
            frameLoadHandler := true }, ?_, rfl, rfl, ?_⟩
  · show displayThumbnail manifestDir id _ f true (initializeSyncPart k f true s) = _
    rw [initializeSyncPart_eq]
    rfl
  · have h1 : runEvents f true url
        ⟨{ s with
            initializing := false,
            observerConnected := true,
            frameEl := some f,
            frameLoadHandler := true }, emptyStore, []⟩
        ((t, NodeEvent.frameLoadFinished) :: rest) =
        runEvents f true url
          ⟨{ s with
              initializing := false,
              observerConnected := true,
              frameEl := some f,
              frameLoadHandler := false },
            ⟨some f.pageImage, some (.json (f.titleAt (t + 1000)))⟩,
            [⟨t + 1000, f.titleAt (t + 1000), f.pageImage⟩]⟩ rest := rfl
    rw [h1, runEvents_dormant f true url rest _ rfl hprev]

/-- C5 witness: on a frame whose title differs before and after the settle
delay, the single snapshot write carries the settled title. -/
theorem claim_C5_witness :
    node0.perviewImageEl = none ∧
    (∃ s1, initializeNode "plugins/clo" "n5" 2 emptyStore demoFrame2 true node0 =
        .ok s1 ∧
      s1.frameEl = some demoFrame2 ∧ s1.frameLoadHandler = true ∧
      (runEvents demoFrame2 true "https://b.example" ⟨s1, emptyStore, []⟩
          ((40, NodeEvent.frameLoadFinished) ::
            [(2000, NodeEvent.frameLoadFinished), (9, NodeEvent.imgClick)])).snapshotWrites =
        [⟨40 + 1000, demoFrame2.titleAt (40 + 1000), demoFrame2.pageImage⟩]) :=
  ⟨rfl, claim_C5 "plugins/clo" "n5" "https://b.example" 2 demoFrame2 node0 rfl
    40 [(2000, NodeEvent.frameLoadFinished), (9, NodeEvent.imgClick)]⟩

/-- C6: the geometry filter lets an event schedule the debounced capture
exactly when both old and new width and height are resolved (non-empty)
and at least one dimension changed; a non-qualifying style mutation leaves
the whole system state untouched. -/
theorem claim_C6 (nw nh ow oh : String) (f : Frame) (w : Bool) (url : String)
    (σ : Sys) (t : Nat) :
    (resizeQualifies nw nh ow oh = true ↔
      (ow ≠ "" ∧ oh ≠ "" ∧ nw ≠ "" ∧ nh ≠ "" ∧ ¬(nw = ow ∧ nh = oh))) ∧
    (resizeQualifies nw nh ow oh = false →
      step f w url σ (t, .styleMutation nw nh ow oh) = σ) := by
  constructor
  · unfold resizeQualifies
    split_ifs with h1 h2 <;> simp_all
    tauto
  · intro hq
    simp [step, hq]

/-- C6 witness: a resize to identical resolved dimensions qualifies nothing
and the event is a no-op on the system. -/
theorem claim_C6_witness :
    resizeQualifies "100px" "100px" "100px" "100px" = false ∧
      step demoFrame true "https://a.example" demoSys
        (0, .styleMutation "100px" "100px" "100px" "100px") = demoSys :=
  ⟨by decide,
    (claim_C6 "100px" "100px" "100px" "100px" demoFrame true "https://a.example"
      demoSys 0).2 (by decide)⟩

/-- C7: when exactly one of the two persisted parts exists, the lookup
falls through to the cache-miss branch: live rendering is activated (frame
mounted, load listener attached), no cached image element is created and
the label is not set from any metadata. -/
theorem claim_C7 (manifestDir id : String) (k : Nat) (store : CacheState)
    (f : Frame) (s : LinkNode)
    (hone : store.thumbnail.isSome ≠ store.metadata.isSome)
    (hprev : s.perviewImageEl = none) :
    ∃ s1, initializeNode manifestDir id k store f true s = .ok s1 ∧
      s1.frameEl = some f ∧ s1.frameLoadHandler = true ∧
      s1.perviewImageEl = none ∧ s1.labelText = s.labelText := by
  obtain ⟨th, md⟩ := store
  refine ⟨{ s with
            initializing := false,
            observerConnected := true,
            frameEl := some f,
            frameLoadHandler := true }, ?_, rfl, rfl, hprev, rfl⟩
  show displayThumbnail manifestDir id _ f true (initializeSyncPart k f true s) = _
  rw [initializeSyncPart_eq]
  rcases th with _ | i <;> rcases md with _ | b
  · rfl
  · rfl
  · rfl
  · simp at hone

/-- C7 witness: a node with only the thumbnail file present goes live. -/
theorem claim_C7_witness :
    halfStore.thumbnail.isSome ≠ halfStore.metadata.isSome ∧
    node0.perviewImageEl = none ∧
    (∃ s1, initializeNode "plugins/clo" "n7" 2 halfStore demoFrame true node0 =
        .ok s1 ∧
      s1.frameEl = some demoFrame ∧ s1.frameLoadHandler = true ∧
      s1.perviewImageEl = none ∧ s1.labelText = node0.labelText) :=
  ⟨by decide, rfl,
    claim_C7 "plugins/clo" "n7" 2 halfStore demoFrame node0 (by decide) rfl⟩

/-- C8 counterexample: two triggers with no completion in between — for
example the initial-load capture still awaiting capturePage when the
resize debounce fires — put two capture-and-save invocations of the same
node in flight at once, refuting the at-most-one-in-flight claim. -/
theorem claim_C8_counterexample :
    inFlight (runSched [SchedEvent.spawn, SchedEvent.spawn]) = 2 := rfl

/-- C8 amended: capture-and-save is not serialized per node — a trigger
arriving while any number of captures are already in flight starts one
more immediately instead of waiting for them, so concurrent captures (and
hence concurrently issued writes) for one node are possible. -/
theorem claim_C8 (tasks : CaptureTasks) :
    inFlight (schedStep tasks .spawn) = inFlight tasks + 1 := by
  simp [schedStep, inFlight]

/-- C9 counterexample: tearing down a node whose MutationObserver is
connected leaves the observer connected — refuting the claim that teardown
releases the observer and the pending timers. -/
theorem claim_C9_counterexample :
    (teardownNode { node0 with observerConnected := true }).observerConnected
      = true := rfl

/-- C9 amended: the constructor hook connects the MutationObserver, and
node teardown releases nothing — the node state, pending listener flags
included, is untouched and the observer stays connected; the only
uninstaller the plugin registers restores the patched prototype methods at
plugin unload, not at node teardown. -/
theorem claim_C9 (manifestDir id : String) (k : Nat) (store : CacheState)
    (f : Frame) (w : Bool) (s s1 : LinkNode)
    (h : initializeNode manifestDir id k store f w s = .ok s1) :
    teardownNode s1 = s1 ∧ (teardownNode s1).observerConnected = true :=
  ⟨rfl, initializeNode_ok_observerConnected manifestDir id k store f w s s1 h⟩

/-- C9 witness: a concrete node built on an empty cache still has its
observer connected after teardown. -/
theorem claim_C9_witness :
    initializeNode "plugins/clo" "n9" 0 emptyStore demoFrame true node0 =
      .ok liveNode ∧
    (teardownNode liveNode = liveNode ∧
      (teardownNode liveNode).observerConnected = true) :=
  ⟨rfl, claim_C9 "plugins/clo" "n9" 0 emptyStore demoFrame true node0 liveNode rfl⟩

/-- C10: a recreateFrame call made while the constructor hook is still
running returns null and has no effect — no frame is mounted and no load
listener installed — however many such calls the wrapped original makes;
this suppression keeps a cache-hit node's render surface dormant during
construction. -/
theorem claim_C10 (f : Frame) (w : Bool) (s : LinkNode) (k : Nat)
    (h : s.initializing = true) :
    recreateFrame f w s = (none, s) ∧
      (fun t => (recreateFrame f w t).2)^[k] s = s :=
  ⟨recreateFrame_of_initializing f w s h,
    iterate_recreateFrame_of_initializing f w k s h⟩

/-- C10 witness: three nested recreateFrame calls during construction leave
the node untouched. -/
theorem claim_C10_witness :
    initNode.initializing = true ∧
    (recreateFrame demoFrame true initNode = (none, initNode) ∧
      (fun t => (recreateFrame demoFrame true t).2)^[3] initNode = initNode) :=
  ⟨rfl, claim_C10 demoFrame true initNode 3 rfl⟩

end CanvasLinkOptimizer
